import Mathlib

/-!
Shallow embedding of the microsoft-agents-starterkit repository.

Each definition below is translated from one Python source file:
  - token_cache.py                      (namespace TokenCache)
  - local_authentication_options.py     (LocalAuthenticationOptions)
  - agent_interface.py                  (AgentClass, check_agent_inheritance)
  - agents/orchestrator.py              (namespace Orchestrator)
  - host_agent_server.py                (namespace Host)

Python exceptions are modelled by Except with a PyError payload; a Python
try/except that logs and continues becomes a total function that maps the
error case to the normal result.  os.getenv results are Option String, and
Python string truthiness is pyTruthy (None and the empty string are falsy).
-/

/-- The two Python exception classes raised by this repository. -/
inductive PyError where
  | typeError (msg : String)
  | valueError (msg : String)
deriving DecidableEq, Repr

/-- Python truthiness of an os.getenv result: None and the empty string are
falsy, every other string is truthy. -/
def pyTruthy : Option String → Bool
  | none => false
  | some s => !s.isEmpty

/-- Python str.strip() with no argument: remove leading and trailing
whitespace characters. -/
def pyStrip (s : String) : String :=
  String.mk (((s.data.dropWhile Char.isWhitespace).reverse.dropWhile
    Char.isWhitespace).reverse)

namespace TokenCache

/-- The module-level dict of token_cache.py, modelled as an association list
in which the most recent binding of a key shadows older ones (dict assignment
is an unconditional overwrite; lookup sees only the newest binding). -/
abbrev Cache := List (String × String)

/-- The initial, empty _agentic_token_cache. -/
def emptyCache : Cache := []

/-- The composite dict key built by both functions of token_cache.py:
the f-string tenant_id:agent_id. -/
def cacheKey (tenant_id agent_id : String) : String :=
  tenant_id ++ ":" ++ agent_id

/-- cache_agentic_token: _agentic_token_cache[key] = token. -/
def cache_agentic_token (c : Cache) (tenant_id agent_id token : String) : Cache :=
  (cacheKey tenant_id agent_id, token) :: c

/-- get_cached_agentic_token: _agentic_token_cache.get(key), i.e. the token if
the key is present and None otherwise (the if token: branch only logs). -/
def get_cached_agentic_token (c : Cache) (tenant_id agent_id : String) : Option String :=
  List.lookup (cacheKey tenant_id agent_id) c

theorem get_cache_same (c : Cache) (t a tok : String) :
    get_cached_agentic_token (cache_agentic_token c t a tok) t a = some tok := by
  simp [get_cached_agentic_token, cache_agentic_token, List.lookup]

theorem get_cache_other (c : Cache) (t a t2 a2 tok : String)
    (h : cacheKey t2 a2 ≠ cacheKey t a) :
    get_cached_agentic_token (cache_agentic_token c t a tok) t2 a2 =
      get_cached_agentic_token c t2 a2 := by
  simp [get_cached_agentic_token, cache_agentic_token, List.lookup, beq_false_of_ne h]

end TokenCache

/-- local_authentication_options.py: the dataclass, after __post_init__ has
coerced both fields to str (so the Lean fields are plain strings). -/
structure LocalAuthenticationOptions where
  env_id : String := ""
  bearer_token : String := ""
deriving DecidableEq, Repr

namespace LocalAuthenticationOptions

/-- The is_valid property: bool(self.env_id and self.bearer_token). -/
def is_valid (o : LocalAuthenticationOptions) : Bool :=
  !o.env_id.isEmpty && !o.bearer_token.isEmpty

/-- The validate method: raises ValueError on the first falsy field, in the
order env_id then bearer_token, and returns None otherwise. -/
def validate (o : LocalAuthenticationOptions) : Except PyError Unit :=
  if o.env_id.isEmpty then
    Except.error (PyError.valueError "env_id is required for authentication")
  else if o.bearer_token.isEmpty then
    Except.error (PyError.valueError "bearer_token is required for authentication")
  else
    Except.ok ()

end LocalAuthenticationOptions

/-- A candidate agent class handed to the host, as agent_interface.py and
host_agent_server.py can observe it: whether issubclass of the AgentInterface
ABC holds, and which of the three abstract methods the class overrides with a
concrete implementation. -/
structure AgentClass where
  name : String
  /-- issubclass(agent_class, AgentInterface) -/
  subclassOfAgentInterface : Bool
  /-- overrides the abstract method named in agent_interface.py line 17 -/
  overridesInit : Bool
  /-- overrides process_user_message -/
  overridesProcessUserMessage : Bool
  /-- overrides cleanup -/
  overridesCleanup : Bool
deriving DecidableEq, Repr

/-- check_agent_inheritance of agent_interface.py: returns the issubclass test
(the print on failure is only logging). -/
def check_agent_inheritance (c : AgentClass) : Bool :=
  c.subclassOfAgentInterface

/-- The capability contract as the claim words it (spec side of the
comparison, not code of this repository): a class implements the
AgentInterface capability contract when it concretely provides all three
abstract methods, which in Python ABC semantics is exactly when the class is
instantiable. -/
def implementsCapabilityContract (c : AgentClass) : Bool :=
  c.overridesInit && c.overridesProcessUserMessage && c.overridesCleanup

namespace Host

/-- The environment variables host_agent_server.py reads, each as the
os.environ.get result. PORT is kept as the already int-converted value. -/
structure HostEnv where
  AUTH_HANDLER_NAME : Option String := none
  CLIENT_ID : Option String := none
  TENANT_ID : Option String := none
  PORT : Option Nat := none

/-- The fields of GenericAgentHost that the verified behaviour depends on. -/
structure GenericAgentHost where
  agent_class : AgentClass
  auth_handler_name : Option String
deriving DecidableEq, Repr

/-- GenericAgentHost.__init__: raises TypeError when check_agent_inheritance
rejects the class, otherwise records the class and the auth handler name
(os.getenv with default empty, then or None). -/
def GenericAgentHost.construct (env : HostEnv) (c : AgentClass) :
    Except PyError GenericAgentHost :=
  if !check_agent_inheritance c then
    Except.error (PyError.typeError
      ("Agent class " ++ c.name ++ " must inherit from AgentInterface"))
  else
    Except.ok
      { agent_class := c
        auth_handler_name :=
          if pyTruthy env.AUTH_HANDLER_NAME then env.AUTH_HANDLER_NAME else none }

/-- desired_port in start_server: int(environ.get(PORT, 3978)). -/
def desired_port (env : HostEnv) : Nat :=
  env.PORT.getD 3978

/-- The connect-probe fallback of start_server: when the probe of the desired
port succeeds (connect_ex returned 0, the port is already bound) the host
moves to desired + 1, otherwise it keeps the desired port.  portBound is the
oracle for the probe. -/
def select_port (desired : Nat) (portBound : Nat → Bool) : Nat :=
  if portBound desired then desired + 1 else desired

/-- What start_server publishes: the port printed in the startup banner and
the port handed to run_app. -/
structure ServerLaunch where
  bannerPort : Nat
  runnerPort : Nat
deriving DecidableEq, Repr

/-- The port-selection tail of start_server: one local variable feeds both the
banner prints and the run_app call. -/
def start_server (env : HostEnv) (portBound : Nat → Bool) : ServerLaunch :=
  let port := select_port (desired_port env) portBound
  { bannerPort := port, runnerPort := port }

/-- Observable milestones of create_and_run_host, in program order. -/
inductive HostEvent where
  | observabilityConfigured
  | hostConstructed
  | agentInstantiated
  | listenerStarted (port : Nat)
deriving DecidableEq, Repr

/-- Python instantiation of the candidate class, self.agent_class(...), as
performed by the on_startup hook: a subclass of the AgentInterface ABC that
leaves any of the three abstract methods without an override cannot be
instantiated and raises TypeError; any other class in this universe
instantiates.  CPython appends the names of the missing methods to the
message in version-dependent wording, so only the exception type and the
message stem are modelled. -/
def instantiateAgentClass (c : AgentClass) : Except PyError Unit :=
  if c.subclassOfAgentInterface
      && !(c.overridesInit && c.overridesProcessUserMessage && c.overridesCleanup) then
    Except.error (PyError.typeError
      ("Can\x27t instantiate abstract class " ++ c.name ++ " with abstract methods"))
  else
    Except.ok ()

/-- GenericAgentHost.initialize_agent, as awaited by the on_startup hook on
the first (and only) startup: construct the agent instance — which raises
TypeError when the class still has abstract methods — then await the
instance's own initialization, whose outcome is the agentInit oracle. -/
def initialize_agent (c : AgentClass) (agentInit : Except PyError Unit) :
    Except PyError Unit :=
  match instantiateAgentClass c with
  | Except.error e => Except.error e
  | Except.ok _ => agentInit

/-- create_and_run_host: the inheritance check raising TypeError, then
observability configuration, host construction, and start_server.  Inside
run_app, aiohttp awaits the application on_startup signals — here the
initialize_agent hook — during runner setup, before the TCP socket is bound;
start_server only catches KeyboardInterrupt, so an exception from the hook
propagates out of create_and_run_host and no listener ever starts.  The ok
result lists the milestones reached in order; an error is an exception
raised before the listener was started. -/
def create_and_run_host (c : AgentClass) (env : HostEnv) (portBound : Nat → Bool)
    (agentInit : Except PyError Unit) : Except PyError (List HostEvent) :=
  if !check_agent_inheritance c then
    Except.error (PyError.typeError
      ("Agent class " ++ c.name ++ " must inherit from AgentInterface"))
  else
    match GenericAgentHost.construct env c with
    | Except.error e => Except.error e
    | Except.ok _ =>
        match initialize_agent c agentInit with
        | Except.error e => Except.error e
        | Except.ok _ =>
            Except.ok [HostEvent.observabilityConfigured, HostEvent.hostConstructed,
              HostEvent.agentInstantiated,
              HostEvent.listenerStarted (start_server env portBound).runnerPort]

/-- The fixed reply _validate_agent_and_setup_context sends when
self.agent_instance is None. -/
def agent_unavailable_reply : String := "Sorry, the agent is not available."

/-- An inbound message activity, reduced to the one attribute the handler
reads: context.activity.text (None or a string). -/
structure InboundActivity where
  text : Option String

/-- The on_message handler of _setup_handlers.  agentAvailable models whether
self.agent_instance is set; response is the outcome of the awaited
process_user_message call (error = the call raised, caught by the handler's
outer try/except).  Returns the texts sent via context.send_activity, in
order, and whether process_user_message was invoked. -/
def on_message (agentAvailable : Bool) (act : InboundActivity)
    (response : Except String String) : List String × Bool :=
  if !agentAvailable then
    ([agent_unavailable_reply], false)
  else
    let user_message := act.text.getD ""
    if (pyStrip user_message).isEmpty || pyStrip user_message == "/help" then
      ([], false)
    else
      match response with
      | Except.ok r => ([r], true)
      | Except.error e => (["Sorry, I encountered an error: " ++ e], true)

/-- GenericAgentHost.cleanup: when an agent instance exists, its cleanup is
awaited under a try/except that logs and swallows any exception. -/
def GenericAgentHost.cleanup (agentAvailable : Bool)
    (agentCleanup : Except String Unit) : Except String Unit :=
  if agentAvailable then
    match agentCleanup with
    | Except.ok u => Except.ok u
    | Except.error _ => Except.ok ()
  else
    Except.ok ()

end Host

namespace Orchestrator

/-- The environment variables _create_client reads, as os.getenv results. -/
structure ModelEnv where
  AZURE_OPENAI_ENDPOINT : Option String := none
  AZURE_OPENAI_DEPLOYMENT : Option String := none
  AZURE_OPENAI_API_VERSION : Option String := none

/-- The AzureOpenAIChatClient as constructed at the end of _create_client;
reaching this constructor is the first step that can touch the network. -/
structure ChatClient where
  endpoint : String
  deployment_name : String
  api_version : String
deriving DecidableEq, Repr

/-- _create_client: three required-variable checks, each raising ValueError on
a missing (None) or empty value, then the client construction. -/
def _create_client (env : ModelEnv) : Except PyError ChatClient :=
  if !pyTruthy env.AZURE_OPENAI_ENDPOINT then
    Except.error (PyError.valueError "AZURE_OPENAI_ENDPOINT is required")
  else if !pyTruthy env.AZURE_OPENAI_DEPLOYMENT then
    Except.error (PyError.valueError "AZURE_OPENAI_DEPLOYMENT is required")
  else if !pyTruthy env.AZURE_OPENAI_API_VERSION then
    Except.error (PyError.valueError "AZURE_OPENAI_API_VERSION is required")
  else
    Except.ok
      { endpoint := env.AZURE_OPENAI_ENDPOINT.getD ""
        deployment_name := env.AZURE_OPENAI_DEPLOYMENT.getD ""
        api_version := env.AZURE_OPENAI_API_VERSION.getD "" }

/-- The mutable OrchestratorAgent fields the verified behaviour depends on:
the one-shot MCP flag, whether _initialize_services produced a tool service
(or logged and left it None), and the names of the tools currently bound to
self.agent. -/
structure OrchState where
  mcpServersInitialized : Bool
  hasToolService : Bool
  agentTools : List String
deriving DecidableEq, Repr

/-- OrchestratorAgent.__init__ after the best-effort instrumentation step:
_create_client may raise, then _create_agents binds the comedian sub-agent
tool, _initialize_services is best-effort (toolServiceAvailable records its
outcome) and the MCP flag starts False. -/
def OrchestratorAgent.construct (env : ModelEnv) (toolServiceAvailable : Bool) :
    Except PyError OrchState :=
  match _create_client env with
  | Except.error e => Except.error e
  | Except.ok _ =>
      Except.ok
        { mcpServersInitialized := false
          hasToolService := toolServiceAvailable
          agentTools := ["comedian"] }

/-- Outcome of the awaited add_tool_servers_to_agent call: either a new agent
with a new tool list, or a raised exception. -/
inductive RegOutcome where
  | succeeded (newTools : List String)
  | raised (msg : String)
deriving DecidableEq, Repr

/-- setup_mcp_servers.  Returns the updated state and whether the remote
registration call was attempted on this invocation.  The early return fires
when the flag is already set; an absent tool service sets the flag and
returns; otherwise the registration outcome is applied and the flag is set on
the success path and in the except branch alike. -/
def setup_mcp_servers (s : OrchState) (reg : RegOutcome) : OrchState × Bool :=
  if s.mcpServersInitialized then
    (s, false)
  else if !s.hasToolService then
    ({ s with mcpServersInitialized := true }, false)
  else
    match reg with
    | RegOutcome.succeeded newTools =>
        ({ s with mcpServersInitialized := true, agentTools := newTools }, true)
    | RegOutcome.raised _ =>
        ({ s with mcpServersInitialized := true }, true)

/-- The agent.run result object as _extract_result can observe it: its Python
truthiness, for each probed attribute whether hasattr holds together with the
str() of its value, and str(result) itself. -/
structure RunResult where
  truthy : Bool
  contents : Option String
  text : Option String
  content : Option String
  asString : String
deriving DecidableEq, Repr

/-- _extract_result: empty string for a falsy result, then the hasattr probes
in source order contents, text, content, falling back to str(result). -/
def _extract_result (result : RunResult) : String :=
  if !result.truthy then ""
  else
    match result.contents with
    | some s => s
    | none =>
      match result.text with
      | some s => s
      | none =>
        match result.content with
        | some s => s
        | none => result.asString

/-- The fixed fallback of process_user_message for empty extracted content. -/
def noContentFallback : String := "I couldn\x27t process your request at this time."

/-- process_user_message: setup_mcp_servers first (it never raises), then the
awaited agent.run modelled by its outcome run; a raised exception is caught
and turned into the error string, otherwise the extracted text or, when that
is empty (Python or), the fallback.  The function is total: no branch
re-raises. -/
def process_user_message (s : OrchState) (reg : RegOutcome)
    (run : Except String RunResult) : OrchState × String :=
  let s1 := (setup_mcp_servers s reg).1
  match run with
  | Except.error e => (s1, "Sorry, I encountered an error: " ++ e)
  | Except.ok result =>
      let extracted := _extract_result result
      (s1, if extracted.isEmpty then noContentFallback else extracted)

/-- OrchestratorAgent.cleanup: the optional tool_service.cleanup is awaited
under a try/except that logs and swallows any exception. -/
def OrchestratorAgent.cleanup (hasToolService : Bool)
    (toolServiceCleanup : Except String Unit) : Except String Unit :=
  match (if hasToolService then toolServiceCleanup else Except.ok ()) with
  | Except.ok u => Except.ok u
  | Except.error _ => Except.ok ()

end Orchestrator

namespace Orchestrator

theorem setup_sets_flag (s : OrchState) (reg : RegOutcome) :
    (setup_mcp_servers s reg).1.mcpServersInitialized = true := by
  obtain ⟨f, ts, tools⟩ := s
  cases f <;> cases ts <;> cases reg <;> simp [setup_mcp_servers]

theorem setup_noop_when_set (s : OrchState) (reg : RegOutcome)
    (h : s.mcpServersInitialized = true) :
    setup_mcp_servers s reg = (s, false) := by
  simp [setup_mcp_servers, h]

end Orchestrator

theorem ne_empty_isEmpty_false (s : String) (h : s ≠ "") : s.isEmpty = false := by
  cases hb : s.isEmpty
  · rfl
  · exact absurd ((String.isEmpty_iff s).mp hb) h

/-- Claim C1: for every user message and every exception raised by agent.run,
process_user_message returns (never raises) the string Sorry, I encountered
an error: followed by the exception text, so the returned string contains the
word error and the text of the original exception. -/
theorem C1_process_user_message_error_string (s : Orchestrator.OrchState)
    (reg : Orchestrator.RegOutcome) (e : String) :
    (Orchestrator.process_user_message s reg (Except.error e)).2 =
      "Sorry, I encountered an error: " ++ e
    ∧ (∃ p q, (Orchestrator.process_user_message s reg (Except.error e)).2 =
        p ++ ("error" ++ q))
    ∧ (∃ p q, (Orchestrator.process_user_message s reg (Except.error e)).2 =
        p ++ (e ++ q)) := by
  refine ⟨rfl, ⟨"Sorry, I encountered an ", ": " ++ e, ?_⟩,
    ⟨"Sorry, I encountered an error: ", "", ?_⟩⟩
  · show "Sorry, I encountered an error: " ++ e =
      "Sorry, I encountered an " ++ ("error" ++ (": " ++ e))
    rw [← String.append_assoc, ← String.append_assoc]
    congr 1
  · show "Sorry, I encountered an error: " ++ e =
      "Sorry, I encountered an error: " ++ (e ++ "")
    rw [String.append_empty]

/-- Claim C2: after the first completed call to setup_mcp_servers — for every
starting state (tool service present or absent) and every registration
outcome (success or raised exception) — the mcpServersInitialized flag is
True, and a subsequent call returns the state unchanged with no registration
attempt. -/
theorem C2_setup_mcp_servers_one_shot (s : Orchestrator.OrchState)
    (reg reg2 : Orchestrator.RegOutcome) :
    (Orchestrator.setup_mcp_servers s reg).1.mcpServersInitialized = true
    ∧ Orchestrator.setup_mcp_servers (Orchestrator.setup_mcp_servers s reg).1 reg2 =
        ((Orchestrator.setup_mcp_servers s reg).1, false) :=
  ⟨Orchestrator.setup_sets_flag s reg,
   Orchestrator.setup_noop_when_set _ reg2 (Orchestrator.setup_sets_flag s reg)⟩

/-- Claim C3, counterexample: the composite key is a plain string
concatenation with a colon, so the distinct pairs (a:b, c) and (a, b:c)
collide on the key a:b:c — caching a token for the second pair overwrites the
value the first pair reads, refuting keys for other (tenant, agent) pairs are
unaffected. -/
theorem C3_counterexample :
    TokenCache.get_cached_agentic_token
        (TokenCache.cache_agentic_token TokenCache.emptyCache "a:b" "c" "tok1")
        "a:b" "c" = some "tok1"
    ∧ TokenCache.get_cached_agentic_token
        (TokenCache.cache_agentic_token
          (TokenCache.cache_agentic_token TokenCache.emptyCache "a:b" "c" "tok1")
          "a" "b:c" "tok2")
        "a:b" "c" = some "tok2"
    ∧ (("a", "b:c") : String × String) ≠ ("a:b", "c") := by
  decide

/-- Claim C3 (amended): a get before any put for that key returns none, two
successive puts on the same key leave the second token (unconditional
overwrite, no history), and a put leaves every pair whose composite key
tenant:agent differs — in particular every other pair whose components are
colon-free — unaffected. -/
theorem C3_token_cache_last_write_wins (c : TokenCache.Cache)
    (t a t2 a2 tok tok1 tok2 : String)
    (hk : TokenCache.cacheKey t2 a2 ≠ TokenCache.cacheKey t a) :
    TokenCache.get_cached_agentic_token TokenCache.emptyCache t a = none
    ∧ TokenCache.get_cached_agentic_token
        (TokenCache.cache_agentic_token (TokenCache.cache_agentic_token c t a tok1) t a tok2)
        t a = some tok2
    ∧ TokenCache.get_cached_agentic_token (TokenCache.cache_agentic_token c t a tok) t2 a2 =
        TokenCache.get_cached_agentic_token c t2 a2 :=
  ⟨rfl, TokenCache.get_cache_same _ t a tok2,
   TokenCache.get_cache_other c t a t2 a2 tok hk⟩

theorem C3_token_cache_last_write_wins_witness :
    TokenCache.get_cached_agentic_token TokenCache.emptyCache "t" "a" = none
    ∧ TokenCache.get_cached_agentic_token
        (TokenCache.cache_agentic_token
          (TokenCache.cache_agentic_token TokenCache.emptyCache "t" "a" "tok1")
          "t" "a" "tok2")
        "t" "a" = some "tok2"
    ∧ TokenCache.get_cached_agentic_token
        (TokenCache.cache_agentic_token TokenCache.emptyCache "t" "a" "x") "t2" "a2" =
        TokenCache.get_cached_agentic_token TokenCache.emptyCache "t2" "a2" :=
  C3_token_cache_last_write_wins TokenCache.emptyCache "t" "a" "t2" "a2" "x" "tok1" "tok2"
    (by decide)

/-- Claim C4, counterexample: a class that subclasses AgentInterface but
overrides none of the three abstract methods does not implement the
capability contract, yet check_agent_inheritance accepts it and
GenericAgentHost construction succeeds without a TypeError — the helper
checks inheritance, not method implementation.  A TypeError does occur, but
only when the startup hook instantiates the class inside run_app, not from
the helper or the constructor as the claim states. -/
theorem C4_counterexample :
    implementsCapabilityContract ⟨"Bad", true, false, false, false⟩ = false
    ∧ check_agent_inheritance ⟨"Bad", true, false, false, false⟩ = true
    ∧ Host.GenericAgentHost.construct {} ⟨"Bad", true, false, false, false⟩ =
        Except.ok ⟨⟨"Bad", true, false, false, false⟩, none⟩
    ∧ (∃ msg, Host.create_and_run_host ⟨"Bad", true, false, false, false⟩ {}
        (fun _ => false) (Except.ok ()) = Except.error (PyError.typeError msg)) :=
  ⟨rfl, rfl, rfl,
   ⟨"Can\x27t instantiate abstract class " ++ "Bad" ++ " with abstract methods", rfl⟩⟩

/-- Claim C4 (amended): for every candidate agent class that does not
implement the capability contract, a TypeError is raised before any listener
is started — create_and_run_host always ends in a TypeError and never reaches
the listener milestone — but the mechanism depends on inheritance: when the
class does not inherit from AgentInterface, check_agent_inheritance rejects
it and GenericAgentHost construction itself raises the TypeError; when it
inherits but leaves abstract methods unimplemented, the helper accepts it and
the TypeError arises at agent instantiation in the startup hook, before the
socket is bound. -/
theorem C4_type_error_before_listener (c : AgentClass) (env : Host.HostEnv)
    (probe : Nat → Bool) (agentInit : Except PyError Unit)
    (h : implementsCapabilityContract c = false) :
    (∃ msg, Host.create_and_run_host c env probe agentInit =
        Except.error (PyError.typeError msg))
    ∧ (∀ evs, Host.create_and_run_host c env probe agentInit ≠ Except.ok evs)
    ∧ (c.subclassOfAgentInterface = false →
        check_agent_inheritance c = false
        ∧ Host.GenericAgentHost.construct env c =
            Except.error (PyError.typeError
              ("Agent class " ++ c.name ++ " must inherit from AgentInterface")))
    ∧ (c.subclassOfAgentInterface = true →
        check_agent_inheritance c = true
        ∧ ∃ msg, Host.instantiateAgentClass c =
            Except.error (PyError.typeError msg)) := by
  unfold implementsCapabilityContract at h
  by_cases hs : c.subclassOfAgentInterface = true
  · have hinst : Host.instantiateAgentClass c = Except.error (PyError.typeError
        ("Can\x27t instantiate abstract class " ++ c.name ++ " with abstract methods")) := by
      simp [Host.instantiateAgentClass, hs, h]
    have hrun : Host.create_and_run_host c env probe agentInit =
        Except.error (PyError.typeError
          ("Can\x27t instantiate abstract class " ++ c.name ++ " with abstract methods")) := by
      simp [Host.create_and_run_host, check_agent_inheritance, hs,
        Host.GenericAgentHost.construct, Host.initialize_agent, hinst]
    refine ⟨⟨_, hrun⟩, ?_, ?_, fun _ => ⟨hs, ⟨_, hinst⟩⟩⟩
    · intro evs hevs
      rw [hrun] at hevs
      exact Except.noConfusion hevs
    · intro hf
      rw [hf] at hs
      exact Bool.noConfusion hs
  · have hs2 : c.subclassOfAgentInterface = false := by
      cases hb : c.subclassOfAgentInterface
      · rfl
      · exact absurd hb hs
    have hcon : Host.GenericAgentHost.construct env c =
        Except.error (PyError.typeError
          ("Agent class " ++ c.name ++ " must inherit from AgentInterface")) := by
      simp [Host.GenericAgentHost.construct, check_agent_inheritance, hs2]
    have hrun : Host.create_and_run_host c env probe agentInit =
        Except.error (PyError.typeError
          ("Agent class " ++ c.name ++ " must inherit from AgentInterface")) := by
      simp [Host.create_and_run_host, check_agent_inheritance, hs2]
    refine ⟨⟨_, hrun⟩, ?_, fun _ => ⟨hs2, hcon⟩, ?_⟩
    · intro evs hevs
      rw [hrun] at hevs
      exact Except.noConfusion hevs
    · intro ht
      rw [ht] at hs2
      exact Bool.noConfusion hs2

theorem C4_type_error_before_listener_witness :
    ∃ msg, Host.create_and_run_host ⟨"NotAnAgent", false, false, false, false⟩ {}
      (fun _ => false) (Except.ok ()) = Except.error (PyError.typeError msg) :=
  (C4_type_error_before_listener ⟨"NotAnAgent", false, false, false, false⟩ {}
    (fun _ => false) (Except.ok ()) rfl).1

/-- Claim C5: when any of the three required model-configuration variables is
absent (None) or empty, _create_client raises a ValueError, so no ChatClient
is ever constructed, and OrchestratorAgent construction propagates that
ValueError. -/
theorem C5_missing_model_env_raises (env : Orchestrator.ModelEnv)
    (toolServiceAvailable : Bool)
    (h : pyTruthy env.AZURE_OPENAI_ENDPOINT = false
      ∨ pyTruthy env.AZURE_OPENAI_DEPLOYMENT = false
      ∨ pyTruthy env.AZURE_OPENAI_API_VERSION = false) :
    (∃ msg, Orchestrator._create_client env = Except.error (PyError.valueError msg))
    ∧ (∃ msg, Orchestrator.OrchestratorAgent.construct env toolServiceAvailable =
        Except.error (PyError.valueError msg))
    ∧ ∀ client, Orchestrator._create_client env ≠ Except.ok client := by
  by_cases h1 : pyTruthy env.AZURE_OPENAI_ENDPOINT <;>
    by_cases h2 : pyTruthy env.AZURE_OPENAI_DEPLOYMENT <;>
      by_cases h3 : pyTruthy env.AZURE_OPENAI_API_VERSION <;>
        simp [Orchestrator._create_client, Orchestrator.OrchestratorAgent.construct,
          h1, h2, h3] at h ⊢

theorem C5_missing_model_env_raises_witness :
    ∃ msg, Orchestrator.OrchestratorAgent.construct ⟨none, some "gpt-4o", some "2024-06-01"⟩
      true = Except.error (PyError.valueError msg) :=
  (C5_missing_model_env_raises ⟨none, some "gpt-4o", some "2024-06-01"⟩ true
    (Or.inl rfl)).2.1

/-- Claim C6, counterexample: a whitespace-only inbound message handled while
the agent instance is absent does produce an outbound text activity — the
handler sends the agent-unavailable reply before it ever checks the text for
emptiness — refuting that every empty or whitespace-only message yields no
outbound activity. -/
theorem C6_counterexample :
    pyStrip "   " = ""
    ∧ Host.on_message false ⟨some "   "⟩ (Except.ok "resp") =
        ([Host.agent_unavailable_reply], false)
    ∧ (Host.on_message false ⟨some "   "⟩ (Except.ok "resp")).1 ≠ ([] : List String) := by
  decide

/-- Claim C6 (amended): when the agent instance is available, every inbound
message activity whose text is absent, empty or whitespace-only makes the
handler return without invoking process_user_message and without sending any
outbound text activity. -/
theorem C6_empty_message_short_circuit (text : Option String)
    (response : Except String String) (h : pyStrip (text.getD "") = "") :
    Host.on_message true ⟨text⟩ response = ([], false) := by
  have hempty : (pyStrip (text.getD "")).isEmpty = true := by rw [h]; rfl
  simp [Host.on_message, hempty]

theorem C6_empty_message_short_circuit_witness :
    Host.on_message true ⟨some " \t "⟩ (Except.ok "hi") = ([], false) :=
  C6_empty_message_short_circuit (some " \t ") (Except.ok "hi") (by decide)

/-- Claim C7: _extract_result probes contents, then text, then content, and
falls back to str(result); a falsy result extracts the empty string, and
process_user_message maps an empty extraction — falsy result or empty
contents alike — to the fixed fallback string instead of empty content. -/
theorem C7_extract_result_priority (s : Orchestrator.OrchState)
    (reg : Orchestrator.RegOutcome) (c t ct a : String) (o1 o2 o3 : Option String) :
    Orchestrator._extract_result ⟨true, some c, o2, o3, a⟩ = c
    ∧ Orchestrator._extract_result ⟨true, none, some t, o3, a⟩ = t
    ∧ Orchestrator._extract_result ⟨true, none, none, some ct, a⟩ = ct
    ∧ Orchestrator._extract_result ⟨true, none, none, none, a⟩ = a
    ∧ Orchestrator._extract_result ⟨false, o1, o2, o3, a⟩ = ""
    ∧ (Orchestrator.process_user_message s reg (Except.ok ⟨false, o1, o2, o3, a⟩)).2 =
        Orchestrator.noContentFallback
    ∧ (Orchestrator.process_user_message s reg (Except.ok ⟨true, some "", o2, o3, a⟩)).2 =
        Orchestrator.noContentFallback :=
  ⟨rfl, rfl, rfl, rfl, rfl, rfl, rfl⟩

/-- Claim C8: when the connect probe finds the desired port (PORT, default
3978) already bound the host selects exactly desired + 1, otherwise it keeps
the desired port; the selected port is both the banner port and the port
passed to run_app. -/
theorem C8_port_selection (env : Host.HostEnv) (portBound : Nat → Bool) :
    (portBound (Host.desired_port env) = true →
      (Host.start_server env portBound).runnerPort = Host.desired_port env + 1)
    ∧ (portBound (Host.desired_port env) = false →
      (Host.start_server env portBound).runnerPort = Host.desired_port env)
    ∧ (Host.start_server env portBound).bannerPort =
        (Host.start_server env portBound).runnerPort
    ∧ (env.PORT = none → Host.desired_port env = 3978) := by
  refine ⟨fun h => ?_, fun h => ?_, rfl, fun h => by simp [Host.desired_port, h]⟩ <;>
    simp [Host.start_server, Host.select_port, h]

theorem C8_port_selection_witness :
    (Host.start_server ⟨none, none, none, some 4000⟩ (fun p => p == 4000)).runnerPort = 4001
    ∧ (Host.start_server {} (fun _ => false)).runnerPort = 3978
    ∧ (Host.start_server {} (fun p => p == 3978)).bannerPort =
        (Host.start_server {} (fun p => p == 3978)).runnerPort :=
  ⟨(C8_port_selection ⟨none, none, none, some 4000⟩ (fun p => p == 4000)).1 (by decide),
   (C8_port_selection {} (fun _ => false)).2.1 rfl,
   (C8_port_selection {} (fun p => p == 3978)).2.2.1⟩

/-- Claim C9: cleanup never propagates a failure — for every outcome of the
inner resource-release call, OrchestratorAgent.cleanup and
GenericAgentHost.cleanup swallow the exception and return normally. -/
theorem C9_cleanup_never_raises (hasToolService agentAvailable : Bool)
    (inner1 inner2 : Except String Unit) :
    Orchestrator.OrchestratorAgent.cleanup hasToolService inner1 = Except.ok ()
    ∧ Host.GenericAgentHost.cleanup agentAvailable inner2 = Except.ok () := by
  constructor
  · cases hasToolService <;> rcases inner1 with e | u <;> rfl
  · cases agentAvailable <;> rcases inner2 with e | u <;> rfl

/-- Claim C10: is_valid is true exactly when validate raises nothing, both
are equivalent to env_id and bearer_token being non-empty, and validate
raises ValueError naming the first missing field (env_id before
bearer_token). -/
theorem C10_is_valid_iff_validate (o : LocalAuthenticationOptions) :
    (o.is_valid = true ↔ o.validate = Except.ok ())
    ∧ (o.is_valid = true ↔ (o.env_id ≠ "" ∧ o.bearer_token ≠ ""))
    ∧ (o.env_id = "" →
        o.validate = Except.error (PyError.valueError "env_id is required for authentication"))
    ∧ (o.env_id ≠ "" → o.bearer_token = "" →
        o.validate = Except.error (PyError.valueError "bearer_token is required for authentication")) := by
  by_cases h1 : o.env_id = "" <;> by_cases h2 : o.bearer_token = "" <;>
    simp [LocalAuthenticationOptions.is_valid, LocalAuthenticationOptions.validate,
      String.isEmpty_iff, ne_empty_isEmpty_false, h1, h2]

theorem C10_is_valid_iff_validate_witness :
    LocalAuthenticationOptions.validate ⟨"", "tok"⟩ =
      Except.error (PyError.valueError "env_id is required for authentication")
    ∧ LocalAuthenticationOptions.validate ⟨"env", ""⟩ =
      Except.error (PyError.valueError "bearer_token is required for authentication")
    ∧ LocalAuthenticationOptions.is_valid ⟨"env", "tok"⟩ = true :=
  ⟨(C10_is_valid_iff_validate ⟨"", "tok"⟩).2.2.1 rfl,
   (C10_is_valid_iff_validate ⟨"env", ""⟩).2.2.2 (by decide) rfl,
   (C10_is_valid_iff_validate ⟨"env", "tok"⟩).1.mpr rfl⟩
